import Mathlib

/-!
Shallow embedding of `train_lora.py` (bmaltais/LECO), centred on the `train`
function: precision resolution, prompt encoding, the training loop (timestep
drawing, partial denoising, the three noise-prediction calls, the guided MSE
loss, the optimizer step), weight serialization, and the final `del` cleanup.

Tensors are modelled as lists of rationals; the external collaborators
(`model_util.load_models`, `train_util.get_text_embeddings`,
`train_util.get_initial_latents`, `train_util.diffusion`,
`train_util.predict_noise`, the AdamW step) are oracles collected in an
`Env` record.  Observable actions (wandb calls, prompt encoding, releasing
the text encoder, sampler calls, mkdir, weight saving) are recorded in an
effect trace in program order.
-/

namespace LECO

/-- Tensors are modelled as flat lists of exact rationals. -/
abbrev Tensor := List ℚ

/-- The LoRA network's trainable parameter set, modelled as a flat list. -/
abbrev Params := List ℚ

/-- Source line 16: `DDIM_STEPS = 50`, the coarse schedule's step count. -/
def DDIM_STEPS : ℕ := 50

/-- The working numeric precision (`torch.float32` / `float16` / `bfloat16`). -/
inductive DType where
  | float32
  | float16
  | bfloat16
deriving DecidableEq, Repr

/-- Source lines 69-73: `weight_dtype = torch.float32`, overridden to
`float16` when `precision == "float16"`, to `bfloat16` when
`precision == "bfloat16"`; every other string keeps `float32`. -/
def resolvePrecision (precision : String) : DType :=
  if precision = "float16" then DType.float16
  else if precision = "bfloat16" then DType.bfloat16
  else DType.float32

/-- Which of the four sampler calls of one iteration an event records. -/
inductive PredKind where
  | diffusionDenoise
  | positivePred
  | neutralPred
  | negativePred
deriving DecidableEq, Repr

/-- Error raised by the embedded `train` (Python `UnboundLocalError` from
`del` of a name that was never bound). -/
inductive TrainError where
  | unboundLocal (name : String)
deriving DecidableEq, Repr

/-- Observable actions of `train`, recorded in program order. -/
inductive Effect where
  | wandbInit (prompt neutral_prompt : String) (iterations : ℕ)
      (negative_guidance : ℚ) (save_path precision : String)
  | encodePrompt (prompt : String) (noGrad : Bool)
  | releaseTextEncoder
  | wandbLogIteration (i : ℕ)
  | samplerCall (kind : PredKind) (adapterEnabled : Bool)
      (embedding : Tensor) (noGrad : Bool)
  | wandbLogLoss (loss : ℚ)
  | optimizerStep
  | mkdir (path : String) (parents exist_ok : Bool)
  | saveWeights (path : String) (dtype : DType) (weights : Params)
deriving DecidableEq, Repr

/-- Oracles for the external collaborators consumed by `train`. -/
structure Env where
  get_text_embeddings : String → Tensor
  get_initial_latents : ℕ → Tensor
  randNat : ℕ → ℕ
  diffusion : Bool → Params → Tensor → Tensor → ℕ → ℕ → ℚ → Tensor
  predict_noise : Bool → Params → ℕ → Tensor → Tensor → ℚ → Tensor
  timesteps1000 : ℕ → ℕ
  optStep : Params → ℚ → Params
  initialParams : Params

/-- `torch.randint(low, high, (1,)).item()`: a uniform draw from
`[low, high)`, modelled over a raw uniform source `r` as
`low + r % (high - low)`. -/
def randint (low high r : ℕ) : ℕ := low + r % (high - low)

/-- Source line 148: `int(timesteps_to * 1000 / DDIM_STEPS)`.  For
`timesteps_to ≤ 48` the float division is exact (the quotient is the
integer `20 * timesteps_to`), so truncating natural division embeds it. -/
def fineTimestepIndex (timesteps_to : ℕ) : ℕ := timesteps_to * 1000 / DDIM_STEPS

/-- `torch.nn.MSELoss()`: mean of elementwise squared differences. -/
def MSELoss (input target : Tensor) : ℚ :=
  let sq := List.zipWith (fun a b => (a - b) ^ 2) input target
  sq.sum / sq.length

/-- Elementwise tensor subtraction. -/
def tensorSub (a b : Tensor) : Tensor := List.zipWith (fun x y => x - y) a b

/-- Scalar multiple of a tensor. -/
def tensorScale (c : ℚ) (a : Tensor) : Tensor := a.map (fun x => c * x)

/-- Modelled from the spec (the `LoRANetwork` context manager lives in
`lora.py`, which is not under `src/`): `with network:` sets the adapter
ENABLED for the body and restores DISABLED on exit, whatever the prior
state was. -/
def withNetwork (_st : Bool) (body : Bool → α) : α × Bool :=
  (body true, false)

/-- Modelled from the spec: the same scoped activation when the body may
raise — the adapter is restored to DISABLED on the exceptional exit path
as well, so code after the scope always sees the unmodified model. -/
def withNetworkExc (_st : Bool) (body : Bool → Except ε α) : Except ε α × Bool :=
  (body true, false)

/-- The local tensors and scalars one loop iteration binds
(source lines 127-190). -/
structure IterLocals where
  timesteps_to : ℕ
  latents : Tensor
  denoised_latents : Tensor
  fine_index : ℕ
  current_timestep : ℕ
  positive_latents : Tensor
  neutral_latents : Tensor
  negative_latents : Tensor
  loss : ℚ
deriving DecidableEq, Repr

/-- Placeholder record, used only to index into iteration-record lists. -/
def defaultLocals : IterLocals :=
  ⟨0, [], [], 0, 0, [], [], [], 0⟩

/-- What one loop iteration produces. -/
structure IterResult where
  params : Params
  adapter : Bool
  locals : IterLocals
  effects : List Effect
deriving Repr

/-- Source lines 117-197, the body of `for i in pbar:`.

* `timesteps_to = torch.randint(1, DDIM_STEPS - 1, (1,)).item()` (line 127);
* `latents = train_util.get_initial_latents(...)` (line 129);
* `with network:` around `train_util.diffusion(..., guidance_scale=3)`
  (lines 132-143), under `torch.no_grad()`;
* `current_timestep = scheduler.timesteps[int(timesteps_to * 1000 / DDIM_STEPS)]`
  (lines 147-149) after `scheduler.set_timesteps(1000)`;
* `positive_latents` / `neutral_latents` via `train_util.predict_noise`
  outside `with network`, still under `torch.no_grad()` (lines 152-168);
* `with network:` around the third `predict_noise` for `negative_latents`,
  outside `torch.no_grad()` (lines 171-179);
* `loss = criteria(negative_latents, neutral_latents - (negative_guidance *
  (positive_latents - neutral_latents)))` (lines 186-190);
* `loss.backward(); optimizer.step()` (lines 196-197), modelled by the
  `optStep` oracle. -/
def trainIteration (env : Env) (negative_guidance : ℚ)
    (positive_text_embeddings neutral_text_embeddings : Tensor)
    (enable_wandb : Bool) (params : Params) (adapter : Bool) (i : ℕ) :
    IterResult :=
  let timesteps_to := randint 1 (DDIM_STEPS - 1) (env.randNat i)
  let latents := env.get_initial_latents i
  let p1 := withNetwork adapter (fun en =>
    env.diffusion en params latents positive_text_embeddings 0 timesteps_to 3)
  let denoised_latents := p1.1
  let adapter1 := p1.2
  let fine_index := fineTimestepIndex timesteps_to
  let current_timestep := env.timesteps1000 fine_index
  let positive_latents :=
    env.predict_noise adapter1 params current_timestep denoised_latents
      positive_text_embeddings 1
  let neutral_latents :=
    env.predict_noise adapter1 params current_timestep denoised_latents
      neutral_text_embeddings 1
  let p2 := withNetwork adapter1 (fun en =>
    env.predict_noise en params current_timestep denoised_latents
      positive_text_embeddings 1)
  let negative_latents := p2.1
  let adapter2 := p2.2
  let loss := MSELoss negative_latents
    (tensorSub neutral_latents
      (tensorScale negative_guidance (tensorSub positive_latents neutral_latents)))
  let params1 := env.optStep params loss
  { params := params1
    adapter := adapter2
    locals := ⟨timesteps_to, latents, denoised_latents, fine_index,
      current_timestep, positive_latents, neutral_latents, negative_latents, loss⟩
    effects :=
      (if enable_wandb then [Effect.wandbLogIteration i] else []) ++
      [Effect.samplerCall PredKind.diffusionDenoise true positive_text_embeddings true,
       Effect.samplerCall PredKind.positivePred adapter1 positive_text_embeddings true,
       Effect.samplerCall PredKind.neutralPred adapter1 neutral_text_embeddings true,
       Effect.samplerCall PredKind.negativePred true positive_text_embeddings false] ++
      (if enable_wandb then [Effect.wandbLogLoss loss] else []) ++
      [Effect.optimizerStep] }

/-- What the whole loop produces: final parameters, the adapter state after
the last iteration, one `IterLocals` record per executed iteration (in
order), and the concatenated effect trace. -/
structure LoopResult where
  params : Params
  adapter : Bool
  records : List IterLocals
  effects : List Effect
deriving Repr

/-- `for i in pbar:` over `range(iterations)`: iterate `trainIteration`
for `i = 0, 1, ...`, threading parameters and adapter state. -/
def trainLoop (env : Env) (negative_guidance : ℚ)
    (positive_text_embeddings neutral_text_embeddings : Tensor)
    (enable_wandb : Bool) : ℕ → Params → Bool → LoopResult
  | 0, params, adapter => ⟨params, adapter, [], []⟩
  | n + 1, params, adapter =>
    let prev := trainLoop env negative_guidance positive_text_embeddings
      neutral_text_embeddings enable_wandb n params adapter
    let it := trainIteration env negative_guidance positive_text_embeddings
      neutral_text_embeddings enable_wandb prev.params prev.adapter n
    ⟨it.params, it.adapter, prev.records ++ [it.locals], prev.effects ++ it.effects⟩

/-- Source line 203: `concept_name = prompt.replace(" ", "_")` — every
space of the prompt becomes an underscore (the pattern is a single
character, so the replacement is a character map). -/
def conceptName (prompt : String) : String :=
  String.mk (prompt.data.map (fun c => if c = ' ' then '_' else c))

/-- Source lines 209-219: `del (unet, scheduler, loss, optimizer, network,
negative_latents, neutral_latents, positive_latents, latents)`.  The names
`unet`, `scheduler`, `optimizer` and `network` are always bound; `loss`,
`negative_latents`, `neutral_latents`, `positive_latents` and `latents`
are bound only by the loop body, so when no iteration ran, `del` reaches
the unbound name `loss` first and raises `UnboundLocalError`. -/
def delLocals (lastIter : Option IterLocals) : Except TrainError Unit :=
  match lastIter with
  | none => Except.error (TrainError.unboundLocal "loss")
  | some _ => Except.ok ()

deriving instance DecidableEq for Except

/-- The outcome of `train`: the returned/raised status, the final adapter
parameters, the per-iteration records, and the effect trace. -/
structure TrainResult where
  result : Except TrainError Unit
  finalParams : Params
  iterRecords : List IterLocals
  effects : List Effect
deriving DecidableEq, Repr

/-- Source lines 33-223, the `train` function, restricted to the arguments
the claims quantify over (the remaining inputs live inside `Env`):

* lines 50-67: when `enable_wandb`, `wandb.init` and the config assignment
  (which records `neutral_prompt`, its only use in the body);
* lines 69-73: `weight_dtype` from `precision` (`resolvePrecision`);
* lines 97-103: under `torch.no_grad()`, `neutral_text_embeddings` from
  `[""]` — the literal empty string, not `neutral_prompt` — and
  `positive_text_embeddings` from `[prompt]`;
* lines 105-106: `del tokenizer; del text_encoder`;
* lines 117-197: the loop (`trainLoop`), starting from the network's
  initial parameters with the adapter DISABLED;
* lines 201-207: `save_path.mkdir(parents=True, exist_ok=True)` and
  `network.save_weights(save_path / f"{concept_name}_last.safetensors",
  dtype=weight_dtype)`;
* lines 209-219: the final `del` (`delLocals`). -/
def train (env : Env) (prompt neutral_prompt : String) (iterations : ℕ)
    (negative_guidance : ℚ) (save_path : String) (precision : String)
    (enable_wandb : Bool) : TrainResult :=
  let initEffects :=
    if enable_wandb then
      [Effect.wandbInit prompt neutral_prompt iterations negative_guidance
        save_path precision]
    else []
  let weight_dtype := resolvePrecision precision
  let setupEffects :=
    [Effect.encodePrompt "" true, Effect.encodePrompt prompt true,
     Effect.releaseTextEncoder]
  let positive_text_embeddings := env.get_text_embeddings prompt
  let neutral_text_embeddings := env.get_text_embeddings ""
  let loop := trainLoop env negative_guidance positive_text_embeddings
    neutral_text_embeddings enable_wandb iterations env.initialParams false
  let concept_name := conceptName prompt
  let saveEffects :=
    [Effect.mkdir save_path true true,
     Effect.saveWeights (save_path ++ "/" ++ concept_name ++ "_last.safetensors")
       weight_dtype loop.params]
  { result := delLocals loop.records.getLast?
    finalParams := loop.params
    iterRecords := loop.records
    effects := initEffects ++ setupEffects ++ loop.effects ++ saveEffects }

/-- Recognizes the sampler-facing calls (`diffusion` / `predict_noise`). -/
def isSamplerCall : Effect → Bool
  | Effect.samplerCall _ _ _ _ => true
  | _ => false

/-- Recognizes prompt encoding and the release of the text encoder. -/
def isEncodeEffect : Effect → Bool
  | Effect.encodePrompt _ _ => true
  | Effect.releaseTextEncoder => true
  | _ => false

/-- Recognizes effects that touch the filesystem. -/
def isPersistentEffect : Effect → Bool
  | Effect.mkdir _ _ _ => true
  | Effect.saveWeights _ _ _ => true
  | _ => false

/-- Recognizes the weight-file write. -/
def isSaveWeights : Effect → Bool
  | Effect.saveWeights _ _ _ => true
  | _ => false

/-- Recognizes effects that only the loop body emits. -/
def isIterEffect : Effect → Bool
  | Effect.samplerCall _ _ _ _ => true
  | Effect.optimizerStep => true
  | Effect.wandbLogIteration _ => true
  | Effect.wandbLogLoss _ => true
  | _ => false

/-- Recognizes the `wandb.init` / config-assignment effect. -/
def isWandbInit : Effect → Bool
  | Effect.wandbInit _ _ _ _ _ _ => true
  | _ => false

/-- A small concrete collaborator environment, used to evaluate the
embedding on closed inputs. -/
def env0 : Env :=
  { get_text_embeddings := fun s => if s = "" then [0] else [1]
    get_initial_latents := fun _ => [0]
    randNat := fun _ => 0
    diffusion := fun _ _ latents _ _ _ _ => latents
    predict_noise := fun en _ _ l _ _ => if en then l.map (fun x => x + 1) else l
    timesteps1000 := fun k => 999 - k
    optStep := fun p loss => p.map (fun x => x + loss)
    initialParams := [0] }

/-! Helper lemmas about the effect trace of the loop. -/

theorem trainIteration_filter_no_encode (env : Env) (g : ℚ) (pe ne : Tensor)
    (w : Bool) (params : Params) (adapter : Bool) (i : ℕ) :
    (trainIteration env g pe ne w params adapter i).effects.filter isEncodeEffect = [] := by
  cases w <;> simp [trainIteration, isEncodeEffect]

theorem trainLoop_filter_no_encode (env : Env) (g : ℚ) (pe ne : Tensor) (w : Bool) :
    ∀ (n : ℕ) (params : Params) (adapter : Bool),
      (trainLoop env g pe ne w n params adapter).effects.filter isEncodeEffect = [] := by
  intro n
  induction n with
  | zero => intro params adapter; rfl
  | succ k ih =>
    intro params adapter
    simp [trainLoop, List.filter_append, ih, trainIteration_filter_no_encode]

theorem trainIteration_filter_no_persistent (env : Env) (g : ℚ) (pe ne : Tensor)
    (w : Bool) (params : Params) (adapter : Bool) (i : ℕ) :
    (trainIteration env g pe ne w params adapter i).effects.filter isPersistentEffect = [] := by
  cases w <;> simp [trainIteration, isPersistentEffect]

theorem trainLoop_filter_no_persistent (env : Env) (g : ℚ) (pe ne : Tensor) (w : Bool) :
    ∀ (n : ℕ) (params : Params) (adapter : Bool),
      (trainLoop env g pe ne w n params adapter).effects.filter isPersistentEffect = [] := by
  intro n
  induction n with
  | zero => intro params adapter; rfl
  | succ k ih =>
    intro params adapter
    simp [trainLoop, List.filter_append, ih, trainIteration_filter_no_persistent]

/-! The claims. -/

/-- C4: for every drawn coarse index `c` in `[1, DDIM_STEPS − 2]`, the fine
timestep index `int(c * 1000 / DDIM_STEPS)` computed after switching to the
1000-step schedule equals `round(c * 1000 / 50)`, equals `20 * c`, lies
within `[0, 1000)`, and the integer truncation is exact (the quotient equals
the rational `c * 1000 / 50`) because 1000 is a multiple of 50. -/
theorem fineTimestepIndex_exact (c : ℕ) (h1 : 1 ≤ c) (h2 : c ≤ DDIM_STEPS - 2) :
    ((fineTimestepIndex c : ℤ) = round ((c : ℚ) * 1000 / 50))
    ∧ fineTimestepIndex c = 20 * c
    ∧ fineTimestepIndex c < 1000
    ∧ ((fineTimestepIndex c : ℚ) = (c : ℚ) * 1000 / 50) := by
  have h20 : fineTimestepIndex c = 20 * c := by
    show c * 1000 / 50 = 20 * c
    omega
  have hc48 : c ≤ 48 := by simpa [DDIM_STEPS] using h2
  have harg : ((c : ℚ) * 1000 / 50) = ((20 * c : ℕ) : ℚ) := by
    push_cast
    ring
  refine ⟨?_, h20, ?_, ?_⟩
  · rw [harg, round_natCast, h20]
  · omega
  · rw [harg, h20]

/-- C4 witness: the fine index for the concrete coarse index 7. -/
theorem fineTimestepIndex_exact_witness :
    ((fineTimestepIndex 7 : ℤ) = round (((7 : ℕ) : ℚ) * 1000 / 50))
    ∧ fineTimestepIndex 7 = 20 * 7
    ∧ fineTimestepIndex 7 < 1000
    ∧ ((fineTimestepIndex 7 : ℚ) = ((7 : ℕ) : ℚ) * 1000 / 50) :=
  fineTimestepIndex_exact 7 (by decide) (by decide)

/-- C5: the coarse timestep draw `torch.randint(1, DDIM_STEPS - 1, (1,))`
always lands in `[1, DDIM_STEPS − 2]` — never 0, never `DDIM_STEPS − 1` —
and is uniform: the generator maps the 48 raw residues bijectively onto
`[1, 48]`; and the loop iteration's `timesteps_to` is exactly such a draw. -/
theorem coarse_timestep_uniform_range :
    (∀ r : ℕ, 1 ≤ randint 1 (DDIM_STEPS - 1) r
      ∧ randint 1 (DDIM_STEPS - 1) r ≤ DDIM_STEPS - 2
      ∧ randint 1 (DDIM_STEPS - 1) r ≠ 0
      ∧ randint 1 (DDIM_STEPS - 1) r ≠ DDIM_STEPS - 1)
    ∧ (List.range (DDIM_STEPS - 2)).map (randint 1 (DDIM_STEPS - 1))
        = List.range' 1 (DDIM_STEPS - 2)
    ∧ ∀ (env : Env) (g : ℚ) (pe ne : Tensor) (w : Bool) (params : Params)
        (adapter : Bool) (i : ℕ),
        (trainIteration env g pe ne w params adapter i).locals.timesteps_to
          = randint 1 (DDIM_STEPS - 1) (env.randNat i) := by
  refine ⟨?_, by decide, ?_⟩
  · intro r
    simp only [randint, DDIM_STEPS]
    omega
  · intro env g pe ne w params adapter i
    rfl

/-- C6: precision resolution is total and silent: `"float16"` gives half
precision, `"bfloat16"` gives bfloat16, and any other string — including
`"float32"` and unrecognized values such as `"int8"` — gives `float32`. -/
theorem resolvePrecision_total :
    resolvePrecision "float16" = DType.float16
    ∧ resolvePrecision "bfloat16" = DType.bfloat16
    ∧ resolvePrecision "float32" = DType.float32
    ∧ resolvePrecision "int8" = DType.float32
    ∧ ∀ s : String, s ≠ "float16" → s ≠ "bfloat16" →
        resolvePrecision s = DType.float32 := by
  refine ⟨by decide, by decide, by decide, by decide, ?_⟩
  intro s h1 h2
  simp [resolvePrecision, h1, h2]

/-- C6 witness: the unrecognized string `"int8"` resolves to `float32`. -/
theorem resolvePrecision_total_witness :
    resolvePrecision "int8" = DType.float32 :=
  resolvePrecision_total.2.2.2.2 "int8" (by decide) (by decide)

/-- C1: in every executed iteration of the training loop, the recorded loss
is the mean-squared error between the adapter-enabled prediction
(`negative_latents`) and the guidance target
`neutral_latents − negative_guidance · (positive_latents − neutral_latents)`
built from that same iteration's two adapter-disabled predictions. -/
theorem loss_is_guided_mse (env : Env) (p np : String) (n : ℕ) (g : ℚ)
    (sp prec : String) (w : Bool) :
    ∀ l ∈ (train env p np n g sp prec w).iterRecords,
      l.loss = MSELoss l.negative_latents
        (tensorSub l.neutral_latents
          (tensorScale g (tensorSub l.positive_latents l.neutral_latents))) := by
  have key : ∀ (pe ne : Tensor) (m : ℕ) (params : Params) (adapter : Bool),
      ∀ l ∈ (trainLoop env g pe ne w m params adapter).records,
        l.loss = MSELoss l.negative_latents
          (tensorSub l.neutral_latents
            (tensorScale g (tensorSub l.positive_latents l.neutral_latents))) := by
    intro pe ne m
    induction m with
    | zero =>
      intro params adapter l hl
      simp [trainLoop] at hl
    | succ k ih =>
      intro params adapter l hl
      simp only [trainLoop, List.mem_append, List.mem_singleton] at hl
      rcases hl with hl | hl
      · exact ih params adapter l hl
      · subst hl
        rfl
  intro l hl
  exact key _ _ n _ _ l hl

section KernelEval

attribute [local semireducible] Rat.add Rat.sub Rat.mul Rat.inv

/-- C1 witness: the single iteration record of a concrete one-iteration run
satisfies the loss equation. -/
theorem loss_is_guided_mse_witness :
    ((train env0 "x" "" 1 1 "out" "float32" false).iterRecords.getD 0 defaultLocals).loss
      = MSELoss
        ((train env0 "x" "" 1 1 "out" "float32" false).iterRecords.getD 0
          defaultLocals).negative_latents
        (tensorSub
          ((train env0 "x" "" 1 1 "out" "float32" false).iterRecords.getD 0
            defaultLocals).neutral_latents
          (tensorScale 1
            (tensorSub
              ((train env0 "x" "" 1 1 "out" "float32" false).iterRecords.getD 0
                defaultLocals).positive_latents
              ((train env0 "x" "" 1 1 "out" "float32" false).iterRecords.getD 0
                defaultLocals).neutral_latents))) :=
  loss_is_guided_mse env0 "x" "" 1 1 "out" "float32" false _ (by decide)

/-- C2 counterexample: `train` called with the non-empty neutral prompt
`"abc"` never encodes `"abc"`; the neutral conditioning embedding is
encoded from the empty string instead, so the claim that it is computed
from the supplied neutral prompt is false. -/
theorem neutral_prompt_not_encoded_cex :
    Effect.encodePrompt "" true
        ∈ (train env0 "x" "abc" 1 1 "out" "float32" false).effects
    ∧ Effect.encodePrompt "abc" true
        ∉ (train env0 "x" "abc" 1 1 "out" "float32" false).effects
    ∧ Effect.encodePrompt "abc" false
        ∉ (train env0 "x" "abc" 1 1 "out" "float32" false).effects := by
  decide

end KernelEval

/-- C2 (amended): the neutral conditioning embedding is encoded once from
the empty string (not from the supplied neutral prompt) and the target
embedding once from the concept prompt, both under no-gradient evaluation,
before the loop starts (they are the first effects after the optional
wandb initialization), after which the tokenizer and text encoder are
released; no encoding or release happens anywhere else. -/
theorem embeddings_precomputed_once (env : Env) (p np : String) (n : ℕ) (g : ℚ)
    (sp prec : String) (w : Bool) :
    (train env p np n g sp prec w).effects.filter isEncodeEffect
      = [Effect.encodePrompt "" true, Effect.encodePrompt p true,
         Effect.releaseTextEncoder]
    ∧ ((train env p np n g sp prec w).effects.drop (if w then 1 else 0)).take 3
      = [Effect.encodePrompt "" true, Effect.encodePrompt p true,
         Effect.releaseTextEncoder] := by
  constructor
  · cases w <;>
      simp [train, List.filter_append, trainLoop_filter_no_encode,
        isEncodeEffect, isPersistentEffect]
  · cases w <;> simp [train]

/-- C3: in every iteration, the partial-denoising call and the third
noise-prediction call run with the adapter ENABLED, the two reference
predictions run with the adapter DISABLED, the adapter is DISABLED again
when the iteration ends, and every activation scope — normal or
exceptional exit — leaves the adapter DISABLED. -/
theorem adapter_scoped_per_iteration (env : Env) (g : ℚ) (pe ne : Tensor)
    (w : Bool) (params : Params) (adapter : Bool) (i : ℕ) :
    ((trainIteration env g pe ne w params adapter i).effects.filter isSamplerCall
      = [Effect.samplerCall PredKind.diffusionDenoise true pe true,
         Effect.samplerCall PredKind.positivePred false pe true,
         Effect.samplerCall PredKind.neutralPred false ne true,
         Effect.samplerCall PredKind.negativePred true pe false])
    ∧ (trainIteration env g pe ne w params adapter i).adapter = false
    ∧ (∀ (α : Type) (st : Bool) (body : Bool → α), (withNetwork st body).2 = false)
    ∧ (∀ (ε α : Type) (st : Bool) (body : Bool → Except ε α),
        (withNetworkExc st body).2 = false) := by
  refine ⟨?_, rfl, fun _ _ _ => rfl, fun _ _ _ _ => rfl⟩
  cases w <;> simp [trainIteration, isSamplerCall, withNetwork]

/-- C7: after the loop, exactly one file is written — the adapter parameter
set, in the working precision, at the path joining the output directory
(created with `parents=True, exist_ok=True`) with the concept prompt whose
spaces became underscores, suffixed `"_last.safetensors"` — and nothing
else persistent is produced. -/
theorem single_weight_file_saved (env : Env) (p np : String) (n : ℕ) (g : ℚ)
    (sp prec : String) (w : Bool) :
    (train env p np n g sp prec w).effects.filter isSaveWeights
      = [Effect.saveWeights (sp ++ "/" ++ conceptName p ++ "_last.safetensors")
          (resolvePrecision prec) (train env p np n g sp prec w).finalParams]
    ∧ (train env p np n g sp prec w).effects.filter isPersistentEffect
      = [Effect.mkdir sp true true,
         Effect.saveWeights (sp ++ "/" ++ conceptName p ++ "_last.safetensors")
          (resolvePrecision prec) (train env p np n g sp prec w).finalParams] := by
  have hsave : ∀ (m : ℕ) (params : Params) (adapter : Bool) (pe ne : Tensor),
      (trainLoop env g pe ne w m params adapter).effects.filter isSaveWeights = [] := by
    intro m
    induction m with
    | zero => intro params adapter pe ne; rfl
    | succ k ih =>
      intro params adapter pe ne
      have hit : ∀ (params1 : Params) (adapter1 : Bool),
          (trainIteration env g pe ne w params1 adapter1 k).effects.filter
            isSaveWeights = [] := by
        intro params1 adapter1
        cases w <;> simp [trainIteration, isSaveWeights]
      simp [trainLoop, List.filter_append, ih, hit]
  constructor
  · cases w <;>
      simp [train, List.filter_append, hsave, isSaveWeights]
  · cases w <;>
      simp [train, List.filter_append, trainLoop_filter_no_persistent,
        isPersistentEffect]

/-- C8: with `iterations = 0` the loop body never runs — no iteration
record, no sampler call, no optimizer step, no adapter parameter change —
and the weight file is still written, containing the adapter's initial
parameter state. -/
theorem zero_iterations_untrained_save (env : Env) (p np : String) (g : ℚ)
    (sp prec : String) (w : Bool) :
    (train env p np 0 g sp prec w).iterRecords = []
    ∧ (train env p np 0 g sp prec w).finalParams = env.initialParams
    ∧ (train env p np 0 g sp prec w).effects.filter isIterEffect = []
    ∧ Effect.saveWeights (sp ++ "/" ++ conceptName p ++ "_last.safetensors")
        (resolvePrecision prec) env.initialParams
        ∈ (train env p np 0 g sp prec w).effects := by
  refine ⟨rfl, rfl, ?_, ?_⟩
  · cases w <;> simp [train, trainLoop, isIterEffect]
  · cases w <;> simp [train, trainLoop]

/-- C9: with `iterations = 0`, `train` does not return normally: the weight
file is written, and then the `del` of the never-bound loop locals (first
`loss`) raises an unbound-local-name error. -/
theorem zero_iterations_raises_unbound_local (env : Env) (p np : String) (g : ℚ)
    (sp prec : String) (w : Bool) :
    (train env p np 0 g sp prec w).result
      = Except.error (TrainError.unboundLocal "loss")
    ∧ Effect.saveWeights (sp ++ "/" ++ conceptName p ++ "_last.safetensors")
        (resolvePrecision prec) env.initialParams
        ∈ (train env p np 0 g sp prec w).effects := by
  refine ⟨rfl, ?_⟩
  cases w <;> simp [train, trainLoop]

section KernelEvalB

attribute [local semireducible] Rat.add Rat.sub Rat.mul Rat.inv

/-- C10 counterexample: with wandb logging enabled, two calls differing only
in `neutral_prompt` produce different observable effect traces (the logged
config records the neutral prompt), so the claimed full observational
independence is false, and `neutral_prompt` is read by the config
assignment. -/
theorem neutral_prompt_observable_cex :
    (train env0 "x" "a" 1 1 "out" "float32" true).effects
      ≠ (train env0 "x" "b" 1 1 "out" "float32" true).effects := by
  decide

end KernelEvalB

/-- C10 (amended): the training-relevant behaviour of `train` is independent
of `neutral_prompt` — the result, the final adapter parameters, the
iteration records (embeddings, predictions, losses) and every effect other
than the wandb config assignment coincide for any two calls differing only
in `neutral_prompt`, and with wandb disabled the two calls are fully
identical — because the neutral embedding is always computed from the empty
string and `neutral_prompt` is read only by the wandb config assignment. -/
theorem neutral_prompt_affects_only_wandb_config (env : Env) (p np1 np2 : String)
    (n : ℕ) (g : ℚ) (sp prec : String) (w : Bool) :
    ((train env p np1 n g sp prec w).result = (train env p np2 n g sp prec w).result
    ∧ (train env p np1 n g sp prec w).finalParams
        = (train env p np2 n g sp prec w).finalParams
    ∧ (train env p np1 n g sp prec w).iterRecords
        = (train env p np2 n g sp prec w).iterRecords
    ∧ (train env p np1 n g sp prec w).effects.filter (fun e => !(isWandbInit e))
        = (train env p np2 n g sp prec w).effects.filter (fun e => !(isWandbInit e)))
    ∧ train env p np1 n g sp prec false = train env p np2 n g sp prec false := by
  refine ⟨⟨rfl, rfl, rfl, ?_⟩, rfl⟩
  cases w <;> simp [train, List.filter_append, isWandbInit]

end LECO
